import Mathlib

/-!
Shallow embedding of the SusieVlogStudio generative-media front end.

The embedded code:
* `src/unnamed/part_000` — `generateImage` (image request, base64 decode of
  the first inline result part) and `generateVideo` (mode-specific payload
  construction, fixed-interval poll loop, final asset fetch);
* `src/components/PromptForm.tsx` — the submit-button gating rules.

Conventions of the embedding:
* TypeScript optional/nullable fields become `Option`;
* JS truthiness on strings (`if (params.prompt)`, `x || fallback`) is
  modelled explicitly: the empty string is falsy;
* an `ImageFile {file, base64}` is flattened to its used fields
  (`base64`, `file.type`, `file.name`);
* the remote service is an oracle: the initial operation, the successive
  poll refresh results and the HTTP fetch are parameters of the model;
* browser `atob` is modelled by the forgiving-base64 decode it implements,
  returning `none` where `atob` would throw `InvalidCharacterError`.
-/

namespace SusieVlog

/-- `ImageFile` from `types.ts` usage: `{file: File, base64: string}`,
flattened to the fields the code reads (`base64`, `file.type`, `file.name`). -/
structure ImageFile where
  base64 : String
  fileType : String
  fileName : String
deriving DecidableEq, Repr

/-- `VideoFile` analogue of `ImageFile` (`fileToVideoFile` in PromptForm.tsx). -/
structure VideoFile where
  base64 : String
  fileType : String
  fileName : String
deriving DecidableEq, Repr

/-- The `Video` handle from `@google/genai`: the code only reads `.uri`. -/
structure Video where
  uri : Option String
deriving DecidableEq, Repr

/-- `GenerationMode` enum from `types.ts` (four mutually exclusive modes). -/
inductive GenerationMode where
  | TEXT_TO_VIDEO
  | FRAMES_TO_VIDEO
  | REFERENCES_TO_VIDEO
  | EXTEND_VIDEO
deriving DecidableEq, Repr

/-- `VideoGenerationReferenceType` from `@google/genai` as used by the code. -/
inductive VideoGenerationReferenceType where
  | ASSET
  | STYLE
deriving DecidableEq, Repr

/-- `GenerateVideoParams` from `types.ts`, as read by `generateVideo` and
produced by `PromptForm.handleSubmit`. -/
structure GenerateVideoParams where
  prompt : String
  model : String
  aspectRatio : String
  resolution : String
  mode : GenerationMode
  startFrame : Option ImageFile
  middleFrame : Option ImageFile
  endFrame : Option ImageFile
  referenceImages : Option (List ImageFile)
  styleImage : Option ImageFile
  inputVideo : Option VideoFile
  inputVideoObject : Option Video
  isLooping : Bool
deriving DecidableEq, Repr

/-- An `{imageBytes, mimeType}` object in the request payload. -/
structure ImagePayload where
  imageBytes : String
  mimeType : String
deriving DecidableEq, Repr

/-- A `VideoGenerationReferenceImage` entry of `config.referenceImages`. -/
structure ReferenceImagePayload where
  image : ImagePayload
  referenceType : VideoGenerationReferenceType
deriving DecidableEq, Repr

/-- The `config` object built by `generateVideo` (part_000 lines 63-70 plus
the mode-specific `lastFrame` / `referenceImages` additions). -/
structure VideoConfig where
  numberOfVideos : Nat
  resolution : String
  aspectRatio : Option String := none
  lastFrame : Option ImagePayload := none
  referenceImages : Option (List ReferenceImagePayload) := none
deriving DecidableEq, Repr

/-- The full `generateVideoPayload` object (part_000 lines 72-160). -/
structure VideoPayload where
  model : String
  config : VideoConfig
  prompt : Option String := none
  image : Option ImagePayload := none
  video : Option Video := none
deriving DecidableEq, Repr

/-- Payload construction of `generateVideo`, part_000 lines 63-160.
`Except.error` models the `throw new Error(...)` on extend mode without an
input video object. JS truthiness: the prompt is attached only when
non-empty; `if (params.referenceImages)` treats an absent list as falsy
(an empty present list iterates zero times, giving the same payload). -/
def buildPayload (params : GenerateVideoParams) : Except String VideoPayload :=
  let config : VideoConfig :=
    { numberOfVideos := 1
      resolution := params.resolution
      aspectRatio :=
        if params.mode ≠ GenerationMode.EXTEND_VIDEO then some params.aspectRatio
        else none }
  let payload : VideoPayload :=
    { model := params.model
      config := config
      prompt := if params.prompt ≠ "" then some params.prompt else none }
  match params.mode with
  | GenerationMode.FRAMES_TO_VIDEO =>
    let payload :=
      match params.startFrame with
      | some sf => { payload with image := some ⟨sf.base64, sf.fileType⟩ }
      | none => payload
    let finalEndFrame :=
      if params.isLooping then params.startFrame else params.endFrame
    let payload :=
      match finalEndFrame with
      | some ef =>
        { payload with
            config := { payload.config with lastFrame := some ⟨ef.base64, ef.fileType⟩ } }
      | none => payload
    let payload :=
      match params.middleFrame with
      | some mf =>
        { payload with
            config := { payload.config with
              referenceImages :=
                some [⟨⟨mf.base64, mf.fileType⟩, VideoGenerationReferenceType.ASSET⟩] } }
      | none => payload
    Except.ok payload
  | GenerationMode.REFERENCES_TO_VIDEO =>
    let referenceImagesPayload : List ReferenceImagePayload :=
      (match params.referenceImages with
       | some imgs =>
         imgs.map fun img =>
           ⟨⟨img.base64, img.fileType⟩, VideoGenerationReferenceType.ASSET⟩
       | none => [])
      ++
      (match params.styleImage with
       | some s => [⟨⟨s.base64, s.fileType⟩, VideoGenerationReferenceType.STYLE⟩]
       | none => [])
    let payload :=
      if referenceImagesPayload.length > 0 then
        { payload with
            config := { payload.config with referenceImages := some referenceImagesPayload } }
      else payload
    Except.ok payload
  | GenerationMode.EXTEND_VIDEO =>
    match params.inputVideoObject with
    | some v => Except.ok { payload with video := some v }
    | none => Except.error "An input video object is required to extend a video."
  | GenerationMode.TEXT_TO_VIDEO => Except.ok payload

/-- JS `m || fallback` for an optional string `m`: both an absent and an
empty message are falsy and fall back (used as `operation.error.message ||
'...'` in part_000 lines 175 and 182). -/
def orFallback (m : Option String) (fallback : String) : String :=
  match m with
  | some s => if s = "" then fallback else s
  | none => fallback

/-- The `error` object of a long-running operation: the code reads
`error.message`. -/
structure OpError where
  message : Option String
deriving DecidableEq, Repr

/-- An entry of `response.generatedVideos`: the code reads `.video`. -/
structure GeneratedVideo where
  video : Option Video
deriving DecidableEq, Repr

/-- The `response` object of a finished operation. -/
structure OpResponse where
  generatedVideos : Option (List GeneratedVideo)
deriving DecidableEq, Repr

/-- A long-running operation status as returned by `generateVideos` /
`getVideosOperation`: the code reads `.done`, `.error`, `.response`. -/
structure Operation where
  done : Bool
  error : Option OpError := none
  response : Option OpResponse := none
deriving DecidableEq, Repr

/-- The result of `fetch`: the code reads `.ok`, `.status`, `.statusText`
and the body blob (modelled by an opaque identifier `blobId`). -/
structure FetchResult where
  ok : Bool
  status : Nat
  statusText : String
  blobId : Nat
deriving DecidableEq, Repr

/-- The value returned by `generateVideo`: `{objectUrl, blob, uri, video}`.
`objectUrl` is a browser-generated handle on the same blob, so the model
keeps the blob identifier, the decoded uri and the video handle. -/
structure VideoResult where
  blobId : Nat
  uri : String
  video : Video
deriving DecidableEq, Repr

/-- The poll loop of `generateVideo`, part_000 lines 166-177:
`while (!operation.done) { sleep; operation = refresh(); if (operation.error)
throw ...; }`. The list is the sequence of successive `getVideosOperation`
results the service would return; `none` means the loop consumed the whole
sequence without reaching a terminal status (the real loop would keep
polling). `some (Except.error msg)` is the throw inside the loop,
`some (Except.ok op)` is normal exit with the final status. -/
def pollOps : Operation → List Operation → Option (Except String Operation)
  | op, [] => if op.done then some (Except.ok op) else none
  | op, r :: rest =>
    if op.done then some (Except.ok op)
    else
      match r.error with
      | some e =>
        some (Except.error
          (orFallback e.message "Video generation operation failed during processing."))
      | none => pollOps r rest

/-- One hexadecimal digit, as `decodeURIComponent` reads `%XY` escapes. -/
def hexDigit (c : Char) : Option Nat :=
  if '0' ≤ c ∧ c ≤ '9' then some (c.toNat - 48)
  else if 'A' ≤ c ∧ c ≤ 'F' then some (c.toNat - 55)
  else if 'a' ≤ c ∧ c ≤ 'f' then some (c.toNat - 87)
  else none

/-- Percent-decoding on the character list of a URI, modelling
`decodeURIComponent` on single-byte escapes (the only behaviour the
claims depend on); a `%` not followed by two hex digits is kept as is. -/
def percentDecode : List Char → List Char
  | [] => []
  | '%' :: h1 :: h2 :: rest =>
    match hexDigit h1, hexDigit h2 with
    | some a, some b => Char.ofNat (16 * a + b) :: percentDecode rest
    | _, _ => '%' :: percentDecode (h1 :: h2 :: rest)
  | c :: rest => c :: percentDecode rest

/-- `decodeURIComponent` as applied to the result URI (part_000 line 198). -/
def decodeURIComponent (s : String) : String :=
  ⟨percentDecode s.data⟩

/-- The post-loop phase of `generateVideo`, part_000 lines 180-214: final
error check, extraction of the first generated video, URI check, fetch of
the binary asset. `fetch` is the HTTP oracle and `apiKey` the environment
key appended to the request URL. -/
def finishVideo (op : Operation) (fetch : String → FetchResult)
    (apiKey : String) : Except String VideoResult :=
  match op.error with
  | some e => Except.error (orFallback e.message "Video generation operation failed.")
  | none =>
    match op.response with
    | some resp =>
      match resp.generatedVideos with
      | none => Except.error "No videos were generated."
      | some [] => Except.error "No videos were generated."
      | some (firstVideo :: _) =>
        match firstVideo.video with
        | none => Except.error "Generated video is missing a URI."
        | some videoObject =>
          match videoObject.uri with
          | none => Except.error "Generated video is missing a URI."
          | some uri =>
            if uri = "" then Except.error "Generated video is missing a URI."
            else
              let url := decodeURIComponent uri
              let res := fetch (url ++ "&key=" ++ apiKey)
              if res.ok then Except.ok ⟨res.blobId, url, videoObject⟩
              else
                Except.error
                  ("Failed to fetch video: " ++ toString res.status ++ " " ++ res.statusText)
    | none =>
      Except.error "No videos generated. The operation completed but returned no results."

/-- The whole `generateVideo` flow, part_000 lines 56-215: build the
payload (throwing on a bad extend request), submit it (the service answers
with `initialOp`), poll with the refresh sequence, then fetch the result.
`none` means the poll loop did not terminate within the given refreshes. -/
def generateVideo (params : GenerateVideoParams) (initialOp : Operation)
    (refreshes : List Operation) (fetch : String → FetchResult)
    (apiKey : String) : Option (Except String VideoResult) :=
  match buildPayload params with
  | Except.error e => some (Except.error e)
  | Except.ok _ =>
    match pollOps initialOp refreshes with
    | none => none
    | some (Except.error e) => some (Except.error e)
    | some (Except.ok op) => some (finishVideo op fetch apiKey)

/-- Value of a base64 alphabet character, as browser `atob` reads it. -/
def b64Index (c : Char) : Option Nat :=
  if 'A' ≤ c ∧ c ≤ 'Z' then some (c.toNat - 65)
  else if 'a' ≤ c ∧ c ≤ 'z' then some (c.toNat - 97 + 26)
  else if '0' ≤ c ∧ c ≤ '9' then some (c.toNat - 48 + 52)
  else if c = '+' then some 62
  else if c = '/' then some 63
  else none

/-- ASCII whitespace, which forgiving-base64 (`atob`) strips. -/
def isB64Whitespace (c : Char) : Bool :=
  c = ' ' || c = '\t' || c = '\n' || c = '\r' || c = '\x0c'

/-- Strip up to two trailing `=` when the input length is a multiple of 4
(the padding rule of forgiving-base64). -/
def stripBase64Padding (cs : List Char) : List Char :=
  if cs.length % 4 == 0 then
    match cs.reverse with
    | '=' :: '=' :: rest => rest.reverse
    | '=' :: rest => rest.reverse
    | _ => cs
  else cs

/-- Six-bit groups to bytes: 4 sextets give 3 bytes, a trailing pair gives
1 byte, a trailing triple gives 2 bytes, a single leftover is invalid. -/
def decodeSextets : List Nat → Option (List Nat)
  | [] => some []
  | [_] => none
  | [a, b] => some [a * 4 + b / 16]
  | [a, b, c] => some [a * 4 + b / 16, (b % 16) * 16 + c / 4]
  | a :: b :: c :: d :: rest =>
    (decodeSextets rest).map fun t =>
      (a * 4 + b / 16) :: ((b % 16) * 16 + c / 4) :: ((c % 4) * 64 + d) :: t

/-- Browser `atob` (forgiving-base64 decode) producing the byte values the
code then reads off with `charCodeAt` (part_000 lines 40-45); `none` where
`atob` throws `InvalidCharacterError`. -/
def atob (s : String) : Option (List Nat) :=
  let cs := s.data.filter fun c => !(isB64Whitespace c)
  let cs := stripBase64Padding cs
  if cs.length % 4 == 1 then none
  else
    match cs.mapM b64Index with
    | some sextets => decodeSextets sextets
    | none => none

/-- The part scan of `generateImage`, part_000 lines 37-53: return the
decoded bytes and base64 string of the first part carrying `inlineData`,
else throw. Each part is modelled by its optional `inlineData.data`. -/
def firstInlineImage : List (Option String) → Except String (List Nat × String)
  | [] => Except.error "Response did not contain image data."
  | none :: rest => firstInlineImage rest
  | some base64 :: _ =>
    match atob base64 with
    | some bytes => Except.ok (bytes, base64)
    | none => Except.error "InvalidCharacterError"

/-- `generateImage`, part_000 lines 13-54, from the service response on.
`parts` is `response.candidates?.[0]?.content?.parts`: `none` when any link
of that chain is missing (the `throw new Error('No image generated.')`
guard), otherwise the list of parts, each reduced to its optional inline
base64 data. The returned pair is (decoded byte array, base64 string). -/
def generateImage (parts : Option (List (Option String))) :
    Except String (List Nat × String) :=
  match parts with
  | none => Except.error "No image generated."
  | some ps => firstInlineImage ps

/-- The PromptForm state read by the submit-gating switch
(PromptForm.tsx lines 570-608). -/
structure FormState where
  prompt : String
  mode : GenerationMode
  startFrame : Option ImageFile
  referenceImages : List ImageFile
  inputVideoObject : Option Video
deriving DecidableEq, Repr

/-- JS `String.prototype.trim`: strip leading and trailing whitespace. -/
def jsTrim (s : String) : String :=
  ⟨((s.data.dropWhile Char.isWhitespace).reverse.dropWhile Char.isWhitespace).reverse⟩

/-- The `isSubmitDisabled` switch of PromptForm.tsx lines 570-608:
text-to-video needs a non-blank prompt (`!prompt.trim()`), frames-to-video
a start frame, references-to-video a non-blank prompt and at least one
asset, extend-video an input video object. -/
def isSubmitDisabled (s : FormState) : Bool :=
  match s.mode with
  | GenerationMode.TEXT_TO_VIDEO => jsTrim s.prompt == ""
  | GenerationMode.FRAMES_TO_VIDEO => s.startFrame.isNone
  | GenerationMode.REFERENCES_TO_VIDEO =>
    jsTrim s.prompt == "" || s.referenceImages.length == 0
  | GenerationMode.EXTEND_VIDEO => s.inputVideoObject.isNone

/-! ### Concrete instances used by witnesses and counterexamples -/

/-- A sample start-frame image file. -/
def imgS : ImageFile := ⟨"SSS", "image/png", "s.png"⟩

/-- A sample end-frame image file, distinct from `imgS`. -/
def imgE : ImageFile := ⟨"EEE", "image/jpeg", "e.jpg"⟩

/-- A sample middle-frame / style image file. -/
def imgM : ImageFile := ⟨"MMM", "image/png", "m.png"⟩

/-- A sample parameter record in text-to-video mode with no media attached. -/
def baseParams : GenerateVideoParams :=
  { prompt := "a calm lake at dawn"
    model := "veo-3.1-generate-preview"
    aspectRatio := "16:9"
    resolution := "720p"
    mode := GenerationMode.TEXT_TO_VIDEO
    startFrame := none
    middleFrame := none
    endFrame := none
    referenceImages := none
    styleImage := none
    inputVideo := none
    inputVideoObject := none
    isLooping := false }

/-- Frames-to-video with looping on and a distinct end frame attached. -/
def loopingParams : GenerateVideoParams :=
  { baseParams with
      mode := GenerationMode.FRAMES_TO_VIDEO
      startFrame := some imgS
      endFrame := some imgE
      isLooping := true }

/-- Frames-to-video with start and end frames, looping off. -/
def framesEndParams : GenerateVideoParams :=
  { baseParams with
      mode := GenerationMode.FRAMES_TO_VIDEO
      startFrame := some imgS
      endFrame := some imgE }

/-- Frames-to-video with start, middle and end frames, looping off. -/
def framesMidParams : GenerateVideoParams :=
  { baseParams with
      mode := GenerationMode.FRAMES_TO_VIDEO
      startFrame := some imgS
      middleFrame := some imgM
      endFrame := some imgE }

/-- References-to-video with two assets and a style image. -/
def refsParams : GenerateVideoParams :=
  { baseParams with
      mode := GenerationMode.REFERENCES_TO_VIDEO
      referenceImages := some [imgS, imgE]
      styleImage := some imgM }

/-- A video handle from a previous generation. -/
def vidObj : Video := ⟨some "prev-video"⟩

/-- Extend-video with an input video object attached. -/
def extendParams : GenerateVideoParams :=
  { baseParams with
      mode := GenerationMode.EXTEND_VIDEO
      inputVideoObject := some vidObj }

/-- Extend-video with no input video object. -/
def extendNoVideoParams : GenerateVideoParams :=
  { baseParams with mode := GenerationMode.EXTEND_VIDEO }

/-- The payload `buildPayload` produces for `extendParams`. -/
def extendPayload : VideoPayload :=
  { model := baseParams.model
    config := { numberOfVideos := 1, resolution := baseParams.resolution }
    prompt := some baseParams.prompt
    video := some vidObj }

/-- A poll refresh carrying a server error with a message. -/
def errorOp : Operation := ⟨false, some ⟨some "quota exceeded"⟩, none⟩

/-- An HTTP oracle that always succeeds with blob 7. -/
def okFetch : String → FetchResult := fun _ => ⟨true, 200, "OK", 7⟩

/-- A result video whose URI is present (percent-encoded). -/
def uriVideo : Video := ⟨some "a%2Fb"⟩

/-- A completed error-free operation whose FIRST generated video has no
URI while its SECOND one has a present URI. -/
def mixedOp : Operation :=
  ⟨true, none, some ⟨some [⟨none⟩, ⟨some uriVideo⟩]⟩⟩

/-- A completed error-free operation with one generated video with a URI. -/
def doneOkOp : Operation := ⟨true, none, some ⟨some [⟨some uriVideo⟩]⟩⟩

/-! ### Theorems -/

/-- C1 counterexample: the claim fails as stated. In a frames-to-video
request with looping enabled, an end frame is set (`imgE`), yet the
payload's `config.lastFrame` carries the START frame's bytes
(`finalEndFrame = isLooping ? startFrame : endFrame`, part_000
lines 92-99), not the end frame's. -/
theorem C1_looping_counterexample :
    loopingParams.mode = GenerationMode.FRAMES_TO_VIDEO ∧
    loopingParams.endFrame = some imgE ∧
    (buildPayload loopingParams).map (fun p => p.config.lastFrame) =
      Except.ok (some ⟨imgS.base64, imgS.fileType⟩) ∧
    (⟨imgS.base64, imgS.fileType⟩ : ImagePayload) ≠ ⟨imgE.base64, imgE.fileType⟩ := by
  refine ⟨rfl, rfl, rfl, by decide⟩

/-- C1 (amended): for every frames-to-video request where an end frame is
set AND looping is not enabled, the payload's `config.lastFrame` has
`imageBytes` equal to the end frame's base64 bytes and `mimeType` equal to
its file type. -/
theorem C1_lastFrame_is_end_frame (params : GenerateVideoParams) (e : ImageFile)
    (hmode : params.mode = GenerationMode.FRAMES_TO_VIDEO)
    (hloop : params.isLooping = false)
    (hend : params.endFrame = some e) :
    (buildPayload params).map (fun p => p.config.lastFrame) =
      Except.ok (some ⟨e.base64, e.fileType⟩) := by
  cases hs : params.startFrame <;> cases hm : params.middleFrame <;>
    simp [buildPayload, Except.map, hmode, hloop, hend, hs, hm]

/-- C1 witness: the amended statement at `framesEndParams`. -/
theorem C1_lastFrame_is_end_frame_witness :
    (buildPayload framesEndParams).map (fun p => p.config.lastFrame) =
      Except.ok (some ⟨imgE.base64, imgE.fileType⟩) :=
  C1_lastFrame_is_end_frame framesEndParams imgE rfl rfl rfl

/-- C5: for every references-to-video request, `config.referenceImages` is
the provided reference images in order with type ASSET, followed by the
style image with type STYLE when provided, and the field is set exactly
when that list is non-empty. -/
theorem C5_reference_images (params : GenerateVideoParams)
    (hmode : params.mode = GenerationMode.REFERENCES_TO_VIDEO) :
    (buildPayload params).map (fun p => p.config.referenceImages) =
      Except.ok
        (let assets := (params.referenceImages.getD []).map fun img =>
          (⟨⟨img.base64, img.fileType⟩, VideoGenerationReferenceType.ASSET⟩ :
            ReferenceImagePayload)
         let style := match params.styleImage with
          | some s =>
            [(⟨⟨s.base64, s.fileType⟩, VideoGenerationReferenceType.STYLE⟩ :
              ReferenceImagePayload)]
          | none => []
         if assets ++ style = [] then none else some (assets ++ style)) := by
  cases href : params.referenceImages <;> cases hstyle : params.styleImage <;>
    simp [buildPayload, Except.map, hmode, href, hstyle] <;>
    (try split) <;> simp_all [List.length_pos]

/-- C5 witness: two assets and a style image at `refsParams`. -/
theorem C5_reference_images_witness :
    (buildPayload refsParams).map (fun p => p.config.referenceImages) =
      Except.ok (some
        [⟨⟨imgS.base64, imgS.fileType⟩, VideoGenerationReferenceType.ASSET⟩,
         ⟨⟨imgE.base64, imgE.fileType⟩, VideoGenerationReferenceType.ASSET⟩,
         ⟨⟨imgM.base64, imgM.fileType⟩, VideoGenerationReferenceType.STYLE⟩]) :=
  C5_reference_images refsParams rfl

/-- C6: an extend-video request throws
`'An input video object is required to extend a video.'` when no input
video object is provided, and otherwise the payload's `video` field is
exactly the provided input video object. -/
theorem C6_extend_requires_input_video (params : GenerateVideoParams)
    (hmode : params.mode = GenerationMode.EXTEND_VIDEO) :
    (params.inputVideoObject = none →
      buildPayload params =
        Except.error "An input video object is required to extend a video.") ∧
    (∀ v, params.inputVideoObject = some v →
      (buildPayload params).map (fun p => p.video) = Except.ok (some v)) := by
  constructor
  · intro h
    simp [buildPayload, hmode, h]
  · intro v h
    simp [buildPayload, Except.map, hmode, h]

/-- C6 witness: the error case at `extendNoVideoParams` and the success
case at `extendParams`. -/
theorem C6_extend_requires_input_video_witness :
    buildPayload extendNoVideoParams =
      Except.error "An input video object is required to extend a video." ∧
    (buildPayload extendParams).map (fun p => p.video) = Except.ok (some vidObj) :=
  ⟨(C6_extend_requires_input_video extendNoVideoParams rfl).1 rfl,
   (C6_extend_requires_input_video extendParams rfl).2 vidObj rfl⟩

/-- C9: every payload `buildPayload` produces has an `aspectRatio` in its
config exactly when the mode is not extend-video; in extend-video mode the
config carries only `numberOfVideos := 1` and the requested resolution
(all optional config fields absent). -/
theorem C9_aspect_ratio_iff_not_extend (params : GenerateVideoParams)
    (p : VideoPayload) (h : buildPayload params = Except.ok p) :
    (p.config.aspectRatio.isSome = true ↔
      params.mode ≠ GenerationMode.EXTEND_VIDEO) ∧
    (params.mode = GenerationMode.EXTEND_VIDEO →
      p.config = { numberOfVideos := 1, resolution := params.resolution }) := by
  cases hmode : params.mode <;> simp [buildPayload, hmode] at h <;>
    repeat' split at h
  all_goals first
    | (subst h; simp [hmode])
    | (simp only [Except.ok.injEq] at h; subst h; simp [hmode])
    | simp_all

/-- C9 witness: the extend-video payload at `extendParams`. -/
theorem C9_aspect_ratio_iff_not_extend_witness :
    extendParams.mode = GenerationMode.EXTEND_VIDEO ∧
    extendPayload.config = { numberOfVideos := 1, resolution := extendParams.resolution } :=
  ⟨rfl, (C9_aspect_ratio_iff_not_extend extendParams extendPayload rfl).2 rfl⟩

/-- C10: in a frames-to-video request with a middle frame, the payload's
`config.referenceImages` is exactly the one-element ASSET list holding the
middle frame's bytes and MIME type, while the `image` field depends only
on the start frame and `config.lastFrame` only on the looping flag and the
start/end frames — the middle frame feeds neither. -/
theorem C10_middle_frame_as_reference (params : GenerateVideoParams)
    (m : ImageFile)
    (hmode : params.mode = GenerationMode.FRAMES_TO_VIDEO)
    (hm : params.middleFrame = some m) :
    (buildPayload params).map
        (fun p => (p.config.referenceImages, p.image, p.config.lastFrame)) =
      Except.ok
        (some [⟨⟨m.base64, m.fileType⟩, VideoGenerationReferenceType.ASSET⟩],
         params.startFrame.map (fun sf => (⟨sf.base64, sf.fileType⟩ : ImagePayload)),
         (if params.isLooping then params.startFrame else params.endFrame).map
           (fun ef => (⟨ef.base64, ef.fileType⟩ : ImagePayload))) := by
  cases hs : params.startFrame <;> cases hl : params.isLooping <;>
    cases he : params.endFrame <;>
    simp [buildPayload, Except.map, hmode, hm, hs, hl, he]

/-- Helper for C2: when the statuses before `r` keep the loop going
(not done, no error) and `r` carries an error, the poll loop stops at `r`
with the thrown message, whatever comes after `r`. -/
theorem pollOps_stops_at_first_error (pre : List Operation) (op r : Operation)
    (post : List Operation) (e : OpError)
    (hop : op.done = false)
    (hpre : ∀ q ∈ pre, q.done = false ∧ q.error = none)
    (herr : r.error = some e) :
    pollOps op (pre ++ r :: post) =
      some (Except.error
        (orFallback e.message
          "Video generation operation failed during processing.")) := by
  induction pre generalizing op with
  | nil => simp [pollOps, hop, herr]
  | cons q rest ih =>
    have hq := hpre q (by simp)
    simp only [List.cons_append, pollOps, hop, Bool.false_eq_true, if_false, hq.2]
    exact ih q hq.1 fun x hx => hpre x (by simp [hx])

/-- C2: once a request is submitted (the payload built), if a status
refresh during polling reports a server error — the statuses before it
keeping the loop alive — `generateVideo` throws right there with the
error's message (JS-falsy messages falling back to
`'Video generation operation failed during processing.'`), for every
continuation of the refresh sequence and every fetch oracle: no further
iteration happens and the result asset is never fetched. -/
theorem C2_poll_error_throws_immediately (params : GenerateVideoParams)
    (pl : VideoPayload) (initialOp r : Operation) (pre : List Operation)
    (e : OpError)
    (hpl : buildPayload params = Except.ok pl)
    (hinit : initialOp.done = false)
    (hpre : ∀ q ∈ pre, q.done = false ∧ q.error = none)
    (herr : r.error = some e) :
    ∀ (post : List Operation) (fetch : String → FetchResult) (apiKey : String),
      generateVideo params initialOp (pre ++ r :: post) fetch apiKey =
        some (Except.error
          (orFallback e.message
            "Video generation operation failed during processing.")) := by
  intro post fetch apiKey
  simp [generateVideo, hpl,
    pollOps_stops_at_first_error pre initialOp r post e hinit hpre herr]

/-- C2 witness: one healthy refresh, then an erroring one; later statuses
and the fetch oracle are irrelevant. -/
theorem C2_poll_error_throws_immediately_witness :
    generateVideo baseParams ⟨false, none, none⟩
        ([⟨false, none, none⟩] ++ errorOp :: [⟨true, none, some ⟨some []⟩⟩])
        okFetch "KEY" =
      some (Except.error "quota exceeded") :=
  C2_poll_error_throws_immediately baseParams
    { model := baseParams.model
      config := { numberOfVideos := 1
                  resolution := baseParams.resolution
                  aspectRatio := some baseParams.aspectRatio }
      prompt := some baseParams.prompt }
    ⟨false, none, none⟩ errorOp [⟨false, none, none⟩] ⟨some "quota exceeded"⟩
    rfl rfl (by decide) rfl [⟨true, none, some ⟨some []⟩⟩] okFetch "KEY"

/-- C3: the poll loop exits with the current status as soon as `done` is
true, and whenever the refresh sequence eventually reports a terminal
(`done = true`) status the loop terminates (it never exhausts the
sequence). -/
theorem C3_poll_loop_terminates (initialOp : Operation)
    (refreshes : List Operation) :
    (initialOp.done = true →
      pollOps initialOp refreshes = some (Except.ok initialOp)) ∧
    ((initialOp.done = true ∨ ∃ r ∈ refreshes, r.done = true) →
      (pollOps initialOp refreshes).isSome = true) := by
  induction refreshes generalizing initialOp with
  | nil =>
    refine ⟨fun h => by simp [pollOps, h], fun h => ?_⟩
    rcases h with h | ⟨r, hr, _⟩
    · simp [pollOps, h]
    · simp at hr
  | cons r rest ih =>
    refine ⟨fun h => by simp [pollOps, h], fun h => ?_⟩
    by_cases hd : initialOp.done
    · simp [pollOps, hd]
    · rcases h with h | ⟨q, hq, hqd⟩
      · exact absurd h hd
      · cases he : r.error with
        | some e => simp [pollOps, hd, he]
        | none =>
          have : pollOps initialOp (r :: rest) = pollOps r rest := by
            simp [pollOps, hd, he]
          rw [this]
          apply (ih r).2
          rcases List.mem_cons.mp hq with rfl | hq2
          · exact Or.inl hqd
          · exact Or.inr ⟨q, hq2, hqd⟩

/-- C3 witness: a not-yet-done start and a refresh sequence whose second
status is terminal. -/
theorem C3_poll_loop_terminates_witness :
    (pollOps ⟨false, none, none⟩
      [⟨false, none, none⟩, ⟨true, none, some ⟨some []⟩⟩]).isSome = true :=
  (C3_poll_loop_terminates ⟨false, none, none⟩
      [⟨false, none, none⟩, ⟨true, none, some ⟨some []⟩⟩]).2
    (Or.inr ⟨⟨true, none, some ⟨some []⟩⟩, by simp, rfl⟩)

/-- Helper for C4: a part list with no inline data throws the descriptive
error. -/
theorem firstInlineImage_all_none (ps : List (Option String))
    (h : ∀ p ∈ ps, p = none) :
    firstInlineImage ps = Except.error "Response did not contain image data." := by
  induction ps with
  | nil => rfl
  | cons p rest ih =>
    have hp := h p (by simp)
    subst hp
    simpa [firstInlineImage] using ih fun x hx => h x (by simp [hx])

/-- Helper for C4: inline-free parts are skipped and the first inline part
decides the result. -/
theorem firstInlineImage_first_inline (pre : List (Option String)) (b : String)
    (rest : List (Option String)) (hpre : ∀ p ∈ pre, p = none) :
    firstInlineImage (pre ++ some b :: rest) =
      match atob b with
      | some bytes => Except.ok (bytes, b)
      | none => Except.error "InvalidCharacterError" := by
  induction pre with
  | nil => simp [firstInlineImage]
  | cons p ps ih =>
    have hp := hpre p (by simp)
    subst hp
    simpa [firstInlineImage] using ih fun x hx => hpre x (by simp [hx])

/-- C4: `generateImage` throws `'No image generated.'` exactly when the
candidate content parts are missing, throws
`'Response did not contain image data.'` when no part carries inline data,
and otherwise returns the decoded binary of the first inline base64 part
together with that base64 string. -/
theorem C4_generateImage_first_inline (parts : Option (List (Option String))) :
    (parts = none → generateImage parts = Except.error "No image generated.") ∧
    (∀ ps, parts = some ps → (∀ p ∈ ps, p = none) →
      generateImage parts = Except.error "Response did not contain image data.") ∧
    (∀ ps pre b rest bytes, parts = some ps → ps = pre ++ some b :: rest →
      (∀ p ∈ pre, p = none) → atob b = some bytes →
      generateImage parts = Except.ok (bytes, b)) := by
  refine ⟨?_, ?_, ?_⟩
  · rintro rfl
    rfl
  · rintro ps rfl h
    simpa [generateImage] using firstInlineImage_all_none ps h
  · rintro ps pre b rest bytes rfl rfl hpre hb
    simpa [generateImage, hb] using firstInlineImage_first_inline pre b rest hpre

/-- C4 witness: a text part followed by an inline part holding the base64
of the bytes `ABC`. -/
theorem C4_generateImage_first_inline_witness :
    generateImage (some [none, some "QUJD"]) = Except.ok ([65, 66, 67], "QUJD") :=
  (C4_generateImage_first_inline (some [none, some "QUJD"])).2.2
    [none, some "QUJD"] [none] "QUJD" [] [65, 66, 67] rfl rfl (by decide) (by decide)

/-- C7 counterexample: the claim fails as stated. `mixedOp` is a completed,
error-free operation whose response has a generated video with a present
result URI (its second one), yet `finishVideo` throws
`'Generated video is missing a URI.'` because only the FIRST generated
video is consulted (part_000 lines 192-195) — it does not fetch and return
the asset. -/
theorem C7_second_uri_counterexample :
    mixedOp.done = true ∧ mixedOp.error = none ∧
    (mixedOp.response.getD ⟨none⟩).generatedVideos.getD [] =
      [⟨none⟩, ⟨some uriVideo⟩] ∧
    uriVideo.uri = some "a%2Fb" ∧
    finishVideo mixedOp okFetch "KEY" =
      Except.error "Generated video is missing a URI." :=
  ⟨rfl, rfl, rfl, rfl, rfl⟩

/-- C7 (amended): for every completed (`done = true`) operation without a
server error, `generateVideo`'s result phase fetches and returns the final
binary asset exactly when the FIRST generated video's result URI is
present; otherwise it throws the descriptive error of the failing check
(`'No videos were generated.'` for an absent or empty video list,
`'Generated video is missing a URI.'` when the first video or its URI is
missing or empty, `'Failed to fetch video: ...'` on HTTP failure,
`'No videos generated. The operation completed but returned no results.'`
when the response is absent). -/
theorem C7_result_fetch_cases (op : Operation) (fetch : String → FetchResult)
    (apiKey : String) (hdone : op.done = true) (herr : op.error = none) :
    (op.response = none →
      finishVideo op fetch apiKey =
        Except.error
          "No videos generated. The operation completed but returned no results.") ∧
    (∀ resp, op.response = some resp →
      (resp.generatedVideos = none ∨ resp.generatedVideos = some []) →
      finishVideo op fetch apiKey = Except.error "No videos were generated.") ∧
    (∀ resp fv rest, op.response = some resp →
      resp.generatedVideos = some (fv :: rest) →
      (fv.video = none ∨
        ∃ v, fv.video = some v ∧ (v.uri = none ∨ v.uri = some "")) →
      finishVideo op fetch apiKey =
        Except.error "Generated video is missing a URI.") ∧
    (∀ resp fv rest v u, op.response = some resp →
      resp.generatedVideos = some (fv :: rest) →
      fv.video = some v → v.uri = some u → u ≠ "" →
      finishVideo op fetch apiKey =
        (if (fetch (decodeURIComponent u ++ "&key=" ++ apiKey)).ok then
          Except.ok
            ⟨(fetch (decodeURIComponent u ++ "&key=" ++ apiKey)).blobId,
             decodeURIComponent u, v⟩
        else
          Except.error
            ("Failed to fetch video: " ++
              toString (fetch (decodeURIComponent u ++ "&key=" ++ apiKey)).status ++
              " " ++ (fetch (decodeURIComponent u ++ "&key=" ++ apiKey)).statusText))) := by
  refine ⟨?_, ?_, ?_, ?_⟩
  · intro h
    simp [finishVideo, herr, h]
  · rintro resp hresp (hv | hv) <;> simp [finishVideo, herr, hresp, hv]
  · rintro resp fv rest hresp hvs (hfv | ⟨v, hfv, hu | hu⟩)
    · simp [finishVideo, herr, hresp, hvs, hfv]
    · simp [finishVideo, herr, hresp, hvs, hfv, hu]
    · simp [finishVideo, herr, hresp, hvs, hfv, hu]
  · intro resp fv rest v u hresp hvs hfv hu hne
    simp [finishVideo, herr, hresp, hvs, hfv, hu, hne]

/-- C7 witness: a single generated video with a percent-encoded URI and a
succeeding fetch oracle. -/
theorem C7_result_fetch_cases_witness :
    finishVideo doneOkOp okFetch "KEY" = Except.ok ⟨7, "a/b", uriVideo⟩ := by
  have h := (C7_result_fetch_cases doneOkOp okFetch "KEY" rfl rfl).2.2.2
    ⟨some [⟨some uriVideo⟩]⟩ ⟨some uriVideo⟩ [] uriVideo "a%2Fb"
    rfl rfl rfl rfl (by decide)
  simpa using h

/-- C8: the submit button is disabled exactly when the selected mode's
validation rule fails: text-to-video needs a non-blank prompt,
frames-to-video a start frame, references-to-video a non-blank prompt and
at least one reference asset, extend-video an input video object. -/
theorem C8_submit_gating (s : FormState) :
    isSubmitDisabled s = false ↔
      (match s.mode with
       | GenerationMode.TEXT_TO_VIDEO => jsTrim s.prompt ≠ ""
       | GenerationMode.FRAMES_TO_VIDEO => s.startFrame ≠ none
       | GenerationMode.REFERENCES_TO_VIDEO =>
         jsTrim s.prompt ≠ "" ∧ s.referenceImages ≠ []
       | GenerationMode.EXTEND_VIDEO => s.inputVideoObject ≠ none) := by
  cases hmode : s.mode <;>
    simp [isSubmitDisabled, hmode, Option.isNone_iff_eq_none,
      Option.isSome_iff_ne_none, List.length_eq_zero]

/-- C8 witness: references-to-video with a prompt and one asset enables
the submit button. -/
theorem C8_submit_gating_witness :
    isSubmitDisabled
      ⟨"hello", GenerationMode.REFERENCES_TO_VIDEO, none, [imgS], none⟩ = false :=
  (C8_submit_gating
      ⟨"hello", GenerationMode.REFERENCES_TO_VIDEO, none, [imgS], none⟩).mpr
    (by decide)

/-- C10 witness: the frames-to-video request `framesMidParams`. -/
theorem C10_middle_frame_as_reference_witness :
    (buildPayload framesMidParams).map
        (fun p => (p.config.referenceImages, p.image, p.config.lastFrame)) =
      Except.ok
        (some [⟨⟨imgM.base64, imgM.fileType⟩, VideoGenerationReferenceType.ASSET⟩],
         some ⟨imgS.base64, imgS.fileType⟩,
         some ⟨imgE.base64, imgE.fileType⟩) :=
  C10_middle_frame_as_reference framesMidParams imgM rfl rfl

end SusieVlog
